import Mathlib

/-!
# TasksFlow monitoring subsystem — verification development

Shallow embedding of the monitoring engine of the TasksFlow backend:
the alert evaluator, GPU/system samplers, the time-series CRUD layer
(aggregation, cleanup, alert resolution, latest-value queries), the
overview service, the status probe, and the collection-loop scheduler.

Python floats are modelled as `Rat` (all values and thresholds involved
are decimal literals, compared and averaged exactly), timestamps as
`Int` seconds, SQL `NULL` / Python `None` as `Option`.
-/

namespace TasksFlow

/-- Alert severity (app/schemas/monitoring.py, `AlertLevel`). -/
inductive AlertLevel
  | info
  | warning
  | critical
deriving DecidableEq, Repr

/-- Alert category (app/schemas/monitoring.py, `AlertType`). -/
inductive AlertType
  | cpu
  | memory
  | gpu
  | disk
  | network
  | system
deriving DecidableEq, Repr

/-- Alert resolution state (app/schemas/monitoring.py, `AlertStatus`). -/
inductive AlertStatus
  | active
  | resolved
deriving DecidableEq, Repr

/-- Python truthiness of an `Optional[float]`: `None` and `0.0` are falsy. -/
def truthy : Option Rat → Bool
  | none => false
  | some x => x != 0

/-- The Python guard `x and x > t` for an `Optional[float]` `x`:
truthiness of `x`, then the comparison. -/
def exceeds (x : Option Rat) (t : Rat) : Bool :=
  truthy x && t < x.getD 0

/-- `SystemMetricsCreate` (app/schemas/monitoring.py lines 31-74): every field
is optional and defaults to `None`; `SystemMetricsCreate()` is the all-`None`
record.  The disk-usage mapping is kept as an association list. -/
structure SystemMetricsCreate where
  cpu_usage_percent : Option Rat := none
  cpu_temperature : Option Rat := none
  cpu_frequency : Option Rat := none
  cpu_cores : Option Int := none
  load_average_1m : Option Rat := none
  load_average_5m : Option Rat := none
  load_average_15m : Option Rat := none
  cpu_per_core_usage : Option (List Rat) := none
  memory_usage_percent : Option Rat := none
  memory_used_gb : Option Rat := none
  memory_total_gb : Option Rat := none
  memory_available_gb : Option Rat := none
  memory_cached_gb : Option Rat := none
  swap_used_gb : Option Rat := none
  swap_total_gb : Option Rat := none
  disk_usage_percent : Option (List (String × Rat)) := none
  disk_read_speed : Option Rat := none
  disk_write_speed : Option Rat := none
  disk_read_iops : Option Rat := none
  disk_write_iops : Option Rat := none
  disk_queue_length : Option Rat := none
  network_upload_speed : Option Rat := none
  network_download_speed : Option Rat := none
  network_connections : Option Int := none
  system_uptime : Option Rat := none
  process_count : Option Int := none
  task_queue_length : Option Int := none
  active_tasks_count : Option Int := none
deriving DecidableEq, Repr

/-- `GPUMetricsCreate` (app/schemas/monitoring.py lines 87-102). -/
structure GPUMetricsCreate where
  gpu_index : Int
  gpu_name : Option String := none
  gpu_usage_percent : Option Rat := none
  gpu_memory_usage_percent : Option Rat := none
  gpu_memory_used_gb : Option Rat := none
  gpu_memory_total_gb : Option Rat := none
  gpu_temperature : Option Rat := none
  gpu_power_usage : Option Rat := none
  gpu_fan_speed : Option Rat := none
deriving DecidableEq, Repr

/-- `TaskMetricsCreate` (app/schemas/monitoring.py lines 115-129). -/
structure TaskMetricsCreate where
  task_id : String
  task_name : Option String := none
  task_status : Option String := none
  task_cpu_usage : Option Rat := none
  task_memory_usage : Option Rat := none
  task_execution_time : Option Rat := none
  process_id : Option Int := none
  process_command : Option String := none
deriving DecidableEq, Repr

/-- The alert messages are Python f-strings; each is modelled as the message
template together with its interpolated arguments (only the decimal rendering
of the numbers is abstracted away). -/
inductive AlertMessage
  | cpuHigh (value : Rat)
  | memoryHigh (value : Rat)
  | diskHigh (device : String) (value : Rat)
  | gpuUsageHigh (gpu_index : Int) (value : Rat)
  | gpuMemoryHigh (gpu_index : Int) (value : Rat)
  | gpuTemperatureHigh (gpu_index : Int) (value : Rat)
deriving DecidableEq, Repr

/-- `MonitoringAlertCreate` (app/schemas/monitoring.py lines 142-153). -/
structure MonitoringAlertCreate where
  alert_type : AlertType
  alert_level : AlertLevel
  alert_message : AlertMessage
  alert_value : Option Rat := none
  threshold_value : Option Rat := none
deriving DecidableEq, Repr

/-- The `alert_thresholds` dict assigned in `MonitoringService.__init__`
(app/services/monitoring.py lines 42-49); defaults are the configured values. -/
structure AlertThresholds where
  cpu_usage : Rat := 80
  memory_usage : Rat := 85
  gpu_usage : Rat := 90
  gpu_memory : Rat := 90
  gpu_temperature : Rat := 80
  disk_usage : Rat := 90
deriving DecidableEq, Repr

/-- The CPU rule of `MonitoringService.check_alerts` (app/services/monitoring.py
lines 257-264): `if cpu_usage_percent and cpu_usage_percent > thresholds['cpu_usage']`,
warning below 95, critical otherwise. -/
def cpu_usage_alerts (th : AlertThresholds) (system_data : SystemMetricsCreate) :
    List MonitoringAlertCreate :=
  if exceeds system_data.cpu_usage_percent th.cpu_usage then
    [{ alert_type := .cpu,
       alert_level :=
         if system_data.cpu_usage_percent.getD 0 < 95 then .warning else .critical,
       alert_message := .cpuHigh (system_data.cpu_usage_percent.getD 0),
       alert_value := system_data.cpu_usage_percent,
       threshold_value := some th.cpu_usage }]
  else []

/-- The memory rule of `check_alerts` (lines 267-274). -/
def memory_usage_alerts (th : AlertThresholds) (system_data : SystemMetricsCreate) :
    List MonitoringAlertCreate :=
  if exceeds system_data.memory_usage_percent th.memory_usage then
    [{ alert_type := .memory,
       alert_level :=
         if system_data.memory_usage_percent.getD 0 < 95 then .warning else .critical,
       alert_message := .memoryHigh (system_data.memory_usage_percent.getD 0),
       alert_value := system_data.memory_usage_percent,
       threshold_value := some th.memory_usage }]
  else []

/-- The per-mount disk rule of `check_alerts` (lines 277-286): a `None` or
empty mapping is falsy and yields nothing, which coincides with iterating an
empty dict. -/
def disk_usage_alerts (th : AlertThresholds) (system_data : SystemMetricsCreate) :
    List MonitoringAlertCreate :=
  (system_data.disk_usage_percent.getD []).filterMap fun du =>
    if th.disk_usage < du.2 then
      some { alert_type := .disk,
             alert_level := if du.2 < (95 : Rat) then .warning else .critical,
             alert_message := .diskHigh du.1 du.2,
             alert_value := some du.2,
             threshold_value := some th.disk_usage }
    else none

/-- The per-GPU rules of `check_alerts` (lines 289-318): usage (always
warning), memory (always warning), temperature (critical strictly above 85,
warning otherwise), in source order. -/
def gpu_item_alerts (th : AlertThresholds) (g : GPUMetricsCreate) :
    List MonitoringAlertCreate :=
  (if exceeds g.gpu_usage_percent th.gpu_usage then
    [{ alert_type := .gpu,
       alert_level := .warning,
       alert_message := .gpuUsageHigh g.gpu_index (g.gpu_usage_percent.getD 0),
       alert_value := g.gpu_usage_percent,
       threshold_value := some th.gpu_usage }]
  else []) ++
  (if exceeds g.gpu_memory_usage_percent th.gpu_memory then
    [{ alert_type := .gpu,
       alert_level := .warning,
       alert_message := .gpuMemoryHigh g.gpu_index (g.gpu_memory_usage_percent.getD 0),
       alert_value := g.gpu_memory_usage_percent,
       threshold_value := some th.gpu_memory }]
  else []) ++
  (if exceeds g.gpu_temperature th.gpu_temperature then
    [{ alert_type := .gpu,
       alert_level := if 85 < g.gpu_temperature.getD 0 then .critical else .warning,
       alert_message := .gpuTemperatureHigh g.gpu_index (g.gpu_temperature.getD 0),
       alert_value := g.gpu_temperature,
       threshold_value := some th.gpu_temperature }]
  else [])

/-- `MonitoringService.check_alerts` (app/services/monitoring.py lines 251-323):
CPU, memory, per-mount disk, then per-GPU usage/memory/temperature rules, in
source order.  Each optional metric is guarded by Python truthiness
(`if value and value > threshold`). -/
def check_alerts (th : AlertThresholds) (system_data : SystemMetricsCreate)
    (gpu_data : List GPUMetricsCreate) : List MonitoringAlertCreate :=
  cpu_usage_alerts th system_data ++
  memory_usage_alerts th system_data ++
  disk_usage_alerts th system_data ++
  gpu_data.flatMap (gpu_item_alerts th)

/-! ## Samplers -/

/-- `MonitoringService.get_system_metrics` (app/services/monitoring.py lines
51-196): the body of the `try` block is one long psutil sampling pass whose
outcome depends on the host OS; it is supplied as an environment value.  The
method's own control flow — on any exception, log and fall back to
`SystemMetricsCreate()` (the all-`None` record) — is embedded here.  The
method never raises: its result type carries no error case. -/
def get_system_metrics (sampled : Except String SystemMetricsCreate) :
    SystemMetricsCreate :=
  match sampled with
  | .ok s => s
  | .error _ => {}

/-- One GPU as surfaced by `GPUtil.getGPUs()`: the attributes read at
app/services/monitoring.py lines 209-215. -/
structure GPUInfo where
  id : Int
  name : String
  load : Rat
  memoryUtil : Rat
  memoryUsed : Rat
  memoryTotal : Rat
  temperature : Rat
deriving DecidableEq, Repr

/-- The optional GPU libraries of app/services/monitoring.py lines 19-33:
whether `GPUtil` / `nvidia_ml_py3` imported, the outcome of `GPUtil.getGPUs()`
(`error` = the call raised), and per-GPU the outcome of the NVML power/fan
queries (raw milliwatts, fan speed; `error` = one of the calls raised). -/
structure GpuBackend where
  gpu_available : Bool
  nvml_available : Bool
  getGPUs : Except String (List GPUInfo)
  nvmlPowerFan : Int → Except String (Rat × Rat)

/-- `MonitoringService.get_gpu_metrics` (app/services/monitoring.py lines
198-235): empty when `GPU_AVAILABLE` is false; the `try` around the whole loop
means a raising `getGPUs` leaves the accumulated list empty; the inner
`try` around the NVML queries means their failure only skips power/fan.
The method never raises: its result type carries no error case. -/
def get_gpu_metrics (be : GpuBackend) : List GPUMetricsCreate :=
  if !be.gpu_available then []
  else
    match be.getGPUs with
    | .error _ => []
    | .ok gpus =>
      gpus.map fun gpu =>
        let gpu_metric : GPUMetricsCreate :=
          { gpu_index := gpu.id,
            gpu_name := some gpu.name,
            gpu_usage_percent := some (gpu.load * 100),
            gpu_memory_usage_percent := some (gpu.memoryUtil * 100),
            gpu_memory_used_gb := some (gpu.memoryUsed / 1024),
            gpu_memory_total_gb := some (gpu.memoryTotal / 1024),
            gpu_temperature := some gpu.temperature }
        if be.nvml_available then
          match be.nvmlPowerFan gpu.id with
          | .ok pf =>
            { gpu_metric with
              gpu_power_usage := some (pf.1 / 1000),
              gpu_fan_speed := some pf.2 }
          | .error _ => gpu_metric
        else gpu_metric

/-- `MonitoringService.get_task_metrics` (app/services/monitoring.py lines
237-249): task monitoring is unimplemented; always the empty list. -/
def get_task_metrics : List TaskMetricsCreate := []

/-! ## Time-series store -/

/-- A `system_metrics` row (app/models/monitoring.py, `SystemMetrics`),
restricted to the columns the verified queries read: the indexed `timestamp`
plus the numeric columns aggregated by `get_aggregated_data`. -/
structure SystemRow where
  id : Nat
  timestamp : Int
  cpu_usage_percent : Option Rat := none
  memory_usage_percent : Option Rat := none
  disk_read_speed : Option Rat := none
  disk_write_speed : Option Rat := none
  network_upload_speed : Option Rat := none
  network_download_speed : Option Rat := none
deriving DecidableEq, Repr

/-- A `gpu_metrics` row (app/models/monitoring.py, `GPUMetrics`), restricted
to the key columns the verified queries use. -/
structure GPURow where
  id : Nat
  timestamp : Int
  gpu_index : Int
  gpu_usage_percent : Option Rat := none
  gpu_memory_usage_percent : Option Rat := none
  gpu_temperature : Option Rat := none
deriving DecidableEq, Repr

/-- A `monitoring_alerts` row (app/models/monitoring.py lines 104-120);
`is_resolved` defaults to `"active"`, `resolved_at` is null until resolution. -/
structure AlertRow where
  id : Nat
  timestamp : Int
  alert_type : AlertType
  alert_level : AlertLevel
  alert_message : AlertMessage
  alert_value : Option Rat := none
  threshold_value : Option Rat := none
  is_resolved : AlertStatus := .active
  resolved_at : Option Int := none
deriving DecidableEq, Repr

/-- The four append-mostly tables, with the auto-increment counter used for
fresh primary keys. -/
structure MonitoringDB where
  next_id : Nat := 1
  system_rows : List SystemRow := []
  gpu_rows : List GPURow := []
  task_rows : List TaskMetricsCreate := []
  alert_rows : List AlertRow := []
deriving DecidableEq, Repr

/-- `system_metrics.create`: durable insert with a fresh id and the
server-side `now` timestamp (`server_default=func.now()`). -/
def insertSystem (db : MonitoringDB) (now : Int) (s : SystemMetricsCreate) :
    MonitoringDB :=
  { db with
    next_id := db.next_id + 1,
    system_rows := db.system_rows ++
      [{ id := db.next_id, timestamp := now,
         cpu_usage_percent := s.cpu_usage_percent,
         memory_usage_percent := s.memory_usage_percent,
         disk_read_speed := s.disk_read_speed,
         disk_write_speed := s.disk_write_speed,
         network_upload_speed := s.network_upload_speed,
         network_download_speed := s.network_download_speed }] }

/-- `gpu_metrics.create`: durable insert with a fresh id and timestamp. -/
def insertGpu (db : MonitoringDB) (now : Int) (g : GPUMetricsCreate) :
    MonitoringDB :=
  { db with
    next_id := db.next_id + 1,
    gpu_rows := db.gpu_rows ++
      [{ id := db.next_id, timestamp := now,
         gpu_index := g.gpu_index,
         gpu_usage_percent := g.gpu_usage_percent,
         gpu_memory_usage_percent := g.gpu_memory_usage_percent,
         gpu_temperature := g.gpu_temperature }] }

/-- `task_metrics.create`: durable insert (payload kept as-is). -/
def insertTask (db : MonitoringDB) (t : TaskMetricsCreate) : MonitoringDB :=
  { db with next_id := db.next_id + 1, task_rows := db.task_rows ++ [t] }

/-- `monitoring_alert.create`: durable insert with a fresh id, timestamp, and
the column defaults `is_resolved="active"`, `resolved_at=NULL`. -/
def insertAlert (db : MonitoringDB) (now : Int) (a : MonitoringAlertCreate) :
    MonitoringDB :=
  { db with
    next_id := db.next_id + 1,
    alert_rows := db.alert_rows ++
      [{ id := db.next_id, timestamp := now,
         alert_type := a.alert_type,
         alert_level := a.alert_level,
         alert_message := a.alert_message,
         alert_value := a.alert_value,
         threshold_value := a.threshold_value }] }

/-- `CRUDSystemMetrics.get_latest` (app/crud/monitoring.py lines 18-20):
`ORDER BY timestamp DESC LIMIT 1`.  SQL leaves the order among equal
timestamps unspecified; ties are broken here by the most recently inserted
row. -/
def system_get_latest (db : MonitoringDB) : Option SystemRow :=
  db.system_rows.foldl
    (fun acc r =>
      match acc with
      | none => some r
      | some best => if best.timestamp ≤ r.timestamp then some r else some best)
    none

/-- `CRUDGPUMetrics.get_all_latest` (app/crud/monitoring.py lines 97-112):
join against the per-`gpu_index` maximal timestamp — every row carrying its
GPU's maximal timestamp is returned (all of them on a tie, as the SQL join
does). -/
def gpu_get_all_latest (db : MonitoringDB) : List GPURow :=
  db.gpu_rows.filter fun r =>
    db.gpu_rows.all fun r2 => r2.gpu_index != r.gpu_index || r2.timestamp ≤ r.timestamp

/-- `CRUDMonitoringAlert.get_active_alerts` (app/crud/monitoring.py lines
220-224): the alerts whose `is_resolved` column equals `"active"`, ordered by
timestamp descending (stable insertion sort, newest first). -/
def get_active_alerts (db : MonitoringDB) : List AlertRow :=
  let rec insertDesc (r : AlertRow) : List AlertRow → List AlertRow
    | [] => [r]
    | x :: xs =>
      if x.timestamp ≤ r.timestamp then r :: x :: xs else x :: insertDesc r xs
  (db.alert_rows.filter fun r => r.is_resolved == .active).foldr insertDesc []

/-- Modelled from the spec: `CRUDBase.get` lives in `app/crud/base.py`,
which is absent from the source tree; per the spec's store contract it is a
primary-key lookup returning the row, or nothing when the id is absent. -/
def crud_get_alert (db : MonitoringDB) (alert_id : Nat) : Option AlertRow :=
  db.alert_rows.find? fun r => r.id == alert_id

/-- `CRUDMonitoringAlert.resolve_alert` (app/crud/monitoring.py lines
240-248): fetch by id; when found, set `is_resolved="resolved"` and
`resolved_at = datetime.utcnow()` (unconditionally — no check of the current
state), commit, and return the refreshed row; when absent, return `None` and
leave the store unchanged. -/
def resolve_alert (db : MonitoringDB) (alert_id : Nat) (now : Int) :
    Option AlertRow × MonitoringDB :=
  match crud_get_alert db alert_id with
  | none => (none, db)
  | some _ =>
    let rows := db.alert_rows.map fun r =>
      if r.id == alert_id then
        { r with is_resolved := .resolved, resolved_at := some now }
      else r
    let db2 := { db with alert_rows := rows }
    (crud_get_alert db2 alert_id, db2)

/-- `CRUDSystemMetrics.cleanup_old_data` (app/crud/monitoring.py lines
80-87): delete the system rows with `timestamp < now − days_to_keep` (strict)
and return the deleted count; no other table is touched. -/
def cleanup_old_data (db : MonitoringDB) (now : Int) (days_to_keep : Int) :
    Nat × MonitoringDB :=
  let cutoff_date := now - days_to_keep * 86400
  let deleted_count :=
    (db.system_rows.filter fun r => r.timestamp < cutoff_date).length
  (deleted_count,
   { db with system_rows := db.system_rows.filter fun r => !(r.timestamp < cutoff_date) })

/-! ## Aggregation -/

/-- SQL `date_trunc('minute', ts)`: floor to the minute boundary. -/
def date_trunc_minute (t : Int) : Int := t - t % 60

/-- SQL `AVG` over a nullable column: `NULL` values are skipped; `NULL` when
no value remains. -/
def sqlAvg (xs : List (Option Rat)) : Option Rat :=
  let vs := xs.filterMap id
  if vs.isEmpty then none else some (vs.sum / vs.length)

/-- SQL `MAX` over a nullable column: `NULL` values are skipped; `NULL` when
no value remains. -/
def sqlMax (xs : List (Option Rat)) : Option Rat :=
  (xs.filterMap id).max?

/-- One row of `get_aggregated_data`'s result (the dict built at
app/crud/monitoring.py lines 65-78); `float(x or 0)` turns a `NULL`
aggregate into `0`. -/
structure AggRow where
  timestamp : Int
  avg_cpu_usage : Rat
  max_cpu_usage : Rat
  avg_memory_usage : Rat
  max_memory_usage : Rat
  avg_disk_read : Rat
  avg_disk_write : Rat
  avg_network_up : Rat
  avg_network_down : Rat
deriving DecidableEq, Repr

/-- Ascending insertion sort on `Int`, for `ORDER BY time_bucket`. -/
def insertAsc (x : Int) : List Int → List Int
  | [] => [x]
  | y :: ys => if x ≤ y then x :: y :: ys else y :: insertAsc x ys

/-- `CRUDSystemMetrics.get_aggregated_data` (app/crud/monitoring.py lines
37-78): filter rows to `start_time ≤ timestamp ≤ end_time` (both inclusive),
group by `date_trunc('minute', timestamp)` — note the grouping key uses only
the minute truncation; the `interval_minutes` parameter (default 5) is not
referenced anywhere in the query — order by the bucket key ascending, and
compute the SQL avg/max aggregates per group.  Only keys coming from actual
rows appear, so zero-row buckets are omitted. -/
def get_aggregated_data (db : MonitoringDB) (start_time end_time : Int)
    (interval_minutes : Int := 5) : List AggRow :=
  let _ := interval_minutes
  let rows := db.system_rows.filter fun r =>
    start_time ≤ r.timestamp && r.timestamp ≤ end_time
  let buckets :=
    ((rows.map fun r => date_trunc_minute r.timestamp).dedup).foldr insertAsc []
  buckets.map fun b =>
    let grp := rows.filter fun r => date_trunc_minute r.timestamp == b
    { timestamp := b,
      avg_cpu_usage := (sqlAvg (grp.map (·.cpu_usage_percent))).getD 0,
      max_cpu_usage := (sqlMax (grp.map (·.cpu_usage_percent))).getD 0,
      avg_memory_usage := (sqlAvg (grp.map (·.memory_usage_percent))).getD 0,
      max_memory_usage := (sqlMax (grp.map (·.memory_usage_percent))).getD 0,
      avg_disk_read := (sqlAvg (grp.map (·.disk_read_speed))).getD 0,
      avg_disk_write := (sqlAvg (grp.map (·.disk_write_speed))).getD 0,
      avg_network_up := (sqlAvg (grp.map (·.network_upload_speed))).getD 0,
      avg_network_down := (sqlAvg (grp.map (·.network_download_speed))).getD 0 }

/-! ## Collection cycle -/

/-- `MonitoringService.collect_and_store_metrics` (app/services/monitoring.py
lines 325-354): sample the system (a pydantic object is always truthy, so the
snapshot is always inserted), then every GPU, then every task, then insert
every alert the evaluator raises.  Storage inserts are the pure appends
above; the surrounding `try` has nothing left to catch. -/
def collect_and_store_metrics (th : AlertThresholds)
    (sampled : Except String SystemMetricsCreate) (be : GpuBackend)
    (now : Int) (db : MonitoringDB) : MonitoringDB :=
  let system_data := get_system_metrics sampled
  let db1 := insertSystem db now system_data
  let gpu_data_list := get_gpu_metrics be
  let db2 := gpu_data_list.foldl (fun d g => insertGpu d now g) db1
  let task_data_list := get_task_metrics
  let db3 := task_data_list.foldl (fun d t => insertTask d t) db2
  let alerts := check_alerts th system_data gpu_data_list
  alerts.foldl (fun d a => insertAlert d now a) db3

/-! ## Overview service -/

/-- The `summary` dict of `get_system_overview`. -/
structure OverviewSummary where
  system_status : String
  timestamp : Int
  active_alerts_count : Nat
  gpu_count : Nat
deriving DecidableEq, Repr

/-- The overview dict of `get_system_overview`. -/
structure Overview where
  system_metrics : Option SystemRow
  gpu_metrics : List GPURow
  active_alerts : List AlertRow
  summary : OverviewSummary
deriving DecidableEq, Repr

/-- `MonitoringService.get_system_overview` (app/services/monitoring.py lines
378-428): read latest system, latest-per-GPU and active alerts from the
store; derive the status (`critical` when a critical active alert exists,
else `warning` when any active alert exists, else `healthy`).  The whole body
sits in one `try`: a failing read (`error`) is caught and the degraded
response — `None` system metrics, empty lists, status `"error"` — is
returned instead of propagating. -/
def get_system_overview (reads : Except String MonitoringDB) (now : Int) :
    Overview :=
  match reads with
  | .ok db =>
    let latest_system := system_get_latest db
    let latest_gpu_list := gpu_get_all_latest db
    let active_alerts := get_active_alerts db
    let critical_alerts :=
      active_alerts.filter fun a => a.alert_level == AlertLevel.critical
    let system_status :=
      if !active_alerts.isEmpty then
        if !critical_alerts.isEmpty then "critical" else "warning"
      else "healthy"
    { system_metrics := latest_system,
      gpu_metrics := latest_gpu_list,
      active_alerts := active_alerts,
      summary :=
        { system_status := system_status,
          timestamp := now,
          active_alerts_count := active_alerts.length,
          gpu_count := latest_gpu_list.length } }
  | .error _ =>
    { system_metrics := none,
      gpu_metrics := [],
      active_alerts := [],
      summary :=
        { system_status := "error",
          timestamp := now,
          active_alerts_count := 0,
          gpu_count := 0 } }

/-! ## Status probe -/

/-- The attribute names ever assigned on the `MonitoringService` instance:
`__init__` assigns these three (app/services/monitoring.py lines 40-42) and
`start_monitoring`/`stop_monitoring` only reassign `is_running`; the class
body defines no further attributes. -/
def monitoringServiceInstanceAttrs : List String :=
  ["is_running", "collection_interval", "alert_thresholds"]

/-- Python `hasattr(monitoring_service, name)`. -/
def service_hasattr (name : String) : Bool :=
  monitoringServiceInstanceAttrs.contains name

/-- The mutable state of the `MonitoringService` singleton. -/
structure ServiceState where
  is_running : Bool
  collection_interval : Int
  alert_thresholds : AlertThresholds
deriving Repr

/-- The status-probe response of `get_monitoring_status`. -/
structure MonitoringStatus where
  service_running : Bool
  collection_interval : Int
  alert_thresholds : AlertThresholds
  gpu_available : Bool
  timestamp : Int
deriving Repr

/-- `get_monitoring_status` (app/api/monitoring.py lines 279-291):
`gpu_available` is `hasattr(monitoring_service, 'GPU_AVAILABLE') and
monitoring_service.GPU_AVAILABLE` — a short-circuit `and`, so the attribute
read only happens when `hasattr` succeeds; `gpu_attr` is the value that read
would yield were the attribute present.  The module-level `GPU_AVAILABLE`
global of app/services/monitoring.py is not an attribute of the instance. -/
def get_monitoring_status (svc : ServiceState) (gpu_attr : Bool) (now : Int) :
    MonitoringStatus :=
  { service_running := svc.is_running,
    collection_interval := svc.collection_interval,
    alert_thresholds := svc.alert_thresholds,
    gpu_available := service_hasattr "GPU_AVAILABLE" && gpu_attr,
    timestamp := now }

/-! ## Collection loop scheduling -/

/-- The inter-cycle sleep of `MonitoringCollector.run`
(src/monitoring_collector.py line 104): `max(0, collection_interval −
execution_time)`. -/
def collectorSleepTime (interval execution_time : Rat) : Rat :=
  max 0 (interval - execution_time)

/-- The overrun warning of `MonitoringCollector.run` (lines 106-110): logged
exactly when the cycle took longer than the interval. -/
def collectorWarns (interval execution_time : Rat) : Bool :=
  interval < execution_time

/-- One executed cycle in the scheduling trace: when its collection work
began, and whether the overrun warning was logged after it. -/
structure CycleRecord where
  start_time : Rat
  warned : Bool
deriving DecidableEq, Repr

/-- Scheduling trace of `MonitoringCollector.run` (lines 97-112), driven by
the wall-clock duration of each successive cycle's work: every duration in
the list yields exactly one executed cycle (the loop body unconditionally
runs `collect_and_store_data` once per iteration — nothing is skipped), and
the next cycle starts after the cycle's own duration plus the computed
sleep. -/
def collectorTrace (interval : Rat) : List Rat → Rat → List CycleRecord
  | [], _ => []
  | d :: ds, t =>
    { start_time := t, warned := collectorWarns interval d } ::
      collectorTrace interval ds (t + d + collectorSleepTime interval d)

/-! ## Observers used by the statements -/

/-- An alert raised by the CPU rule (alert type `cpu`). -/
def isCpuAlert (a : MonitoringAlertCreate) : Bool := a.alert_type == .cpu

/-- An alert raised by the GPU-temperature rule. -/
def isGpuTemperatureAlert (a : MonitoringAlertCreate) : Bool :=
  match a.alert_message with
  | .gpuTemperatureHigh _ _ => true
  | _ => false

/-- An alert raised by the GPU-usage rule. -/
def isGpuUsageAlert (a : MonitoringAlertCreate) : Bool :=
  match a.alert_message with
  | .gpuUsageHigh _ _ => true
  | _ => false

/-- An alert raised by the GPU-memory rule. -/
def isGpuMemoryAlert (a : MonitoringAlertCreate) : Bool :=
  match a.alert_message with
  | .gpuMemoryHigh _ _ => true
  | _ => false

/-- The configured threshold for the metric an alert message reports on
(`self.alert_thresholds[...]` as used by each rule). -/
def configured_threshold (th : AlertThresholds) : AlertMessage → Rat
  | .cpuHigh _ => th.cpu_usage
  | .memoryHigh _ => th.memory_usage
  | .diskHigh _ _ => th.disk_usage
  | .gpuUsageHigh _ _ => th.gpu_usage
  | .gpuMemoryHigh _ _ => th.gpu_memory
  | .gpuTemperatureHigh _ _ => th.gpu_temperature

/-! ## Helper lemmas -/

theorem exceeds_some_iff (v t : Rat) :
    exceeds (some v) t = true ↔ v ≠ 0 ∧ t < v := by
  simp [exceeds, truthy]

theorem exceeds_some_of_nonneg (v t : Rat) (ht : 0 ≤ t) :
    exceeds (some v) t = decide (t < v) := by
  by_cases h : t < v
  · have hv : v ≠ 0 := ne_of_gt (lt_of_le_of_lt ht h)
    simp [exceeds, truthy, h, hv]
  · simp [exceeds, truthy, h]

theorem exceeds_none (t : Rat) : exceeds none t = false := by
  simp [exceeds, truthy]

theorem flatMap_const_nil {α β : Type} (l : List α) :
    (l.flatMap fun _ => ([] : List β)) = [] := by
  induction l with
  | nil => rfl
  | cons x xs ih => simp [List.flatMap_cons, ih]

theorem length_filter_add_length_filter_not {α : Type} (p : α → Bool)
    (l : List α) :
    (l.filter p).length + (l.filter fun a => !p a).length = l.length := by
  induction l with
  | nil => rfl
  | cons x xs ih =>
    by_cases h : p x <;> simp [List.filter_cons, h] <;> omega

theorem filter_cpu_memory (th : AlertThresholds) (s : SystemMetricsCreate) :
    (memory_usage_alerts th s).filter isCpuAlert = [] := by
  unfold memory_usage_alerts
  split <;> simp [isCpuAlert]

theorem filter_cpu_disk (th : AlertThresholds) (s : SystemMetricsCreate) :
    (disk_usage_alerts th s).filter isCpuAlert = [] := by
  unfold disk_usage_alerts
  rw [List.filter_eq_nil_iff]
  intro a ha
  rw [List.mem_filterMap] at ha
  obtain ⟨du, _, hdu⟩ := ha
  by_cases h : th.disk_usage < du.2 <;> simp [h] at hdu
  subst hdu; simp [isCpuAlert]

theorem filter_cpu_gpu (th : AlertThresholds) (g : GPUMetricsCreate) :
    (gpu_item_alerts th g).filter isCpuAlert = [] := by
  unfold gpu_item_alerts
  rw [List.filter_append, List.filter_append]
  split <;> split <;> split <;> simp [isCpuAlert]

theorem filter_temp_cpu (th : AlertThresholds) (s : SystemMetricsCreate) :
    (cpu_usage_alerts th s).filter isGpuTemperatureAlert = [] := by
  unfold cpu_usage_alerts
  split <;> simp [isGpuTemperatureAlert]

theorem filter_temp_memory (th : AlertThresholds) (s : SystemMetricsCreate) :
    (memory_usage_alerts th s).filter isGpuTemperatureAlert = [] := by
  unfold memory_usage_alerts
  split <;> simp [isGpuTemperatureAlert]

theorem filter_temp_disk (th : AlertThresholds) (s : SystemMetricsCreate) :
    (disk_usage_alerts th s).filter isGpuTemperatureAlert = [] := by
  unfold disk_usage_alerts
  rw [List.filter_eq_nil_iff]
  intro a ha
  rw [List.mem_filterMap] at ha
  obtain ⟨du, _, hdu⟩ := ha
  by_cases h : th.disk_usage < du.2 <;> simp [h] at hdu
  subst hdu; simp [isGpuTemperatureAlert]

theorem filter_temp_gpu (th : AlertThresholds) (g : GPUMetricsCreate) :
    (gpu_item_alerts th g).filter isGpuTemperatureAlert =
      (if exceeds g.gpu_temperature th.gpu_temperature then
        [{ alert_type := .gpu,
           alert_level := if 85 < g.gpu_temperature.getD 0 then .critical else .warning,
           alert_message := .gpuTemperatureHigh g.gpu_index (g.gpu_temperature.getD 0),
           alert_value := g.gpu_temperature,
           threshold_value := some th.gpu_temperature }]
      else []) := by
  unfold gpu_item_alerts
  rw [List.filter_append, List.filter_append]
  split <;> split <;> split <;> simp [isGpuTemperatureAlert]

/-! ## Claim theorems -/

/-- C8 : The evaluator's CPU rule uses an exclusive lower bound: a snapshot
with `cpu_usage_percent` exactly 80 produces no CPU alert; any value strictly
above 80 produces exactly one CPU alert, at warning level below 95 and at
critical level at 95 or above. -/
theorem cpu_rule_exclusive_lower_bound (s : SystemMetricsCreate)
    (gpus : List GPUMetricsCreate) (v : Rat) (hv : s.cpu_usage_percent = some v) :
    (check_alerts {} s gpus).filter isCpuAlert =
      (if 80 < v then
        [{ alert_type := .cpu,
           alert_level := if v < 95 then .warning else .critical,
           alert_message := .cpuHigh v,
           alert_value := some v,
           threshold_value := some 80 }]
      else []) := by
  unfold check_alerts
  rw [List.filter_append, List.filter_append, List.filter_append,
    filter_cpu_memory, filter_cpu_disk, List.filter_flatMap]
  simp only [filter_cpu_gpu, flatMap_const_nil, List.append_nil]
  unfold cpu_usage_alerts
  rw [hv, exceeds_some_of_nonneg v _ (by norm_num)]
  by_cases h : (80 : Rat) < v <;> simp [h, isCpuAlert, hv]

/-- C8 witness: at `cpu_usage_percent = 96` the rule fires critically. -/
theorem cpu_rule_exclusive_lower_bound_witness :
    (check_alerts {} { cpu_usage_percent := some 96 } []).filter isCpuAlert =
      [{ alert_type := .cpu, alert_level := .critical,
         alert_message := .cpuHigh 96, alert_value := some 96,
         threshold_value := some 80 }] := by
  have h := cpu_rule_exclusive_lower_bound { cpu_usage_percent := some 96 } [] 96 rfl
  rw [h]; decide

/-- C3 counterexample: a GPU snapshot at temperature exactly 85 produces a
GPU-temperature alert at level warning, not critical (the source rule is
`CRITICAL if temperature > 85 else WARNING`). -/
theorem gpu_temperature_85_is_warning :
    check_alerts {} {} [{ gpu_index := 0, gpu_temperature := some 85 }] =
      [{ alert_type := .gpu, alert_level := .warning,
         alert_message := .gpuTemperatureHigh 0 85,
         alert_value := some 85, threshold_value := some 80 }] ∧
    AlertLevel.warning ≠ AlertLevel.critical := by
  constructor
  · decide
  · decide

/-- C3 (amended) : for every GPU snapshot whose temperature exceeds 80, the
evaluator emits exactly one GPU-temperature alert; its level is critical when
the temperature is strictly above 85 and warning when it is 85 or below. -/
theorem gpu_temperature_rule (s : SystemMetricsCreate) (g : GPUMetricsCreate)
    (t : Rat) (hg : g.gpu_temperature = some t) (ht : 80 < t) :
    (check_alerts {} s [g]).filter isGpuTemperatureAlert =
      [{ alert_type := .gpu,
         alert_level := if 85 < t then .critical else .warning,
         alert_message := .gpuTemperatureHigh g.gpu_index t,
         alert_value := some t,
         threshold_value := some 80 }] := by
  unfold check_alerts
  rw [List.filter_append, List.filter_append, List.filter_append,
    filter_temp_cpu, filter_temp_memory, filter_temp_disk]
  simp only [List.flatMap_cons, List.flatMap_nil, List.append_nil,
    List.filter_append, List.nil_append]
  rw [filter_temp_gpu, hg, exceeds_some_of_nonneg t _ (by norm_num)]
  simp [ht]

/-- C3 witness: at temperature 90 the amended rule yields a critical alert. -/
theorem gpu_temperature_rule_witness :
    (check_alerts {} {} [{ gpu_index := 1, gpu_temperature := some 90 }]).filter
        isGpuTemperatureAlert =
      [{ alert_type := .gpu, alert_level := .critical,
         alert_message := .gpuTemperatureHigh 1 90,
         alert_value := some 90, threshold_value := some 80 }] := by
  have h := gpu_temperature_rule {} { gpu_index := 1, gpu_temperature := some 90 }
    90 rfl (by norm_num)
  rw [h]; decide

/-- C9 : the status probe reports `gpu_available = False` in every state:
`hasattr(monitoring_service, 'GPU_AVAILABLE')` is false because the attribute
is never assigned on the instance (GPU availability is a module-level
global), so the short-circuit conjunction is always false. -/
theorem status_probe_gpu_available_always_false (svc : ServiceState)
    (gpu_attr : Bool) (now : Int) :
    (get_monitoring_status svc gpu_attr now).gpu_available = false := rfl

theorem exceeds_elim {x : Option Rat} {t : Rat} (h : exceeds x t = true) :
    ∃ v, x = some v ∧ t < v := by
  cases x with
  | none => simp [exceeds, truthy] at h
  | some v => exact ⟨v, rfl, ((exceeds_some_iff v t).mp h).2⟩

/-- C10 : every alert produced by the evaluator carries an alert_value
strictly greater than its threshold_value, a threshold_value equal to the
configured threshold for its metric, and a level that is warning or critical
(never info); GPU-usage and GPU-memory alerts are always warning. -/
theorem evaluator_alert_invariant (th : AlertThresholds)
    (s : SystemMetricsCreate) (gpus : List GPUMetricsCreate)
    (a : MonitoringAlertCreate) (ha : a ∈ check_alerts th s gpus) :
    a.alert_level ≠ .info ∧
    a.threshold_value = some (configured_threshold th a.alert_message) ∧
    (∃ v, a.alert_value = some v ∧ configured_threshold th a.alert_message < v) ∧
    (isGpuUsageAlert a = true ∨ isGpuMemoryAlert a = true →
      a.alert_level = .warning) := by
  unfold check_alerts at ha
  simp only [List.mem_append, List.mem_flatMap] at ha
  rcases ha with ((h | h) | h) | ⟨g, _, h⟩
  · unfold cpu_usage_alerts at h
    split at h
    · rename_i hc
      obtain ⟨v, hv, hlt⟩ := exceeds_elim hc
      rw [List.mem_singleton] at h
      subst h
      refine ⟨by split <;> simp, by simp [configured_threshold], ?_, ?_⟩
      · exact ⟨v, by simpa [configured_threshold] using ⟨hv, hlt⟩⟩
      · simp [isGpuUsageAlert, isGpuMemoryAlert]
    · simp at h
  · unfold memory_usage_alerts at h
    split at h
    · rename_i hc
      obtain ⟨v, hv, hlt⟩ := exceeds_elim hc
      rw [List.mem_singleton] at h
      subst h
      refine ⟨by split <;> simp, by simp [configured_threshold], ?_, ?_⟩
      · exact ⟨v, by simpa [configured_threshold] using ⟨hv, hlt⟩⟩
      · simp [isGpuUsageAlert, isGpuMemoryAlert]
    · simp at h
  · unfold disk_usage_alerts at h
    rw [List.mem_filterMap] at h
    obtain ⟨du, _, hdu⟩ := h
    by_cases hc : th.disk_usage < du.2 <;> simp [hc] at hdu
    subst hdu
    refine ⟨by split <;> simp, by simp [configured_threshold], ?_, ?_⟩
    · exact ⟨du.2, by simpa [configured_threshold] using hc⟩
    · simp [isGpuUsageAlert, isGpuMemoryAlert]
  · unfold gpu_item_alerts at h
    simp only [List.mem_append] at h
    rcases h with (h | h) | h
    · split at h
      · rename_i hc
        obtain ⟨v, hv, hlt⟩ := exceeds_elim hc
        rw [List.mem_singleton] at h
        subst h
        refine ⟨by simp, by simp [configured_threshold], ?_, ?_⟩
        · exact ⟨v, by simpa [configured_threshold] using ⟨hv, hlt⟩⟩
        · intro _; rfl
      · simp at h
    · split at h
      · rename_i hc
        obtain ⟨v, hv, hlt⟩ := exceeds_elim hc
        rw [List.mem_singleton] at h
        subst h
        refine ⟨by simp, by simp [configured_threshold], ?_, ?_⟩
        · exact ⟨v, by simpa [configured_threshold] using ⟨hv, hlt⟩⟩
        · intro _; rfl
      · simp at h
    · split at h
      · rename_i hc
        obtain ⟨v, hv, hlt⟩ := exceeds_elim hc
        rw [List.mem_singleton] at h
        subst h
        refine ⟨by split <;> simp, by simp [configured_threshold], ?_, ?_⟩
        · exact ⟨v, by simpa [configured_threshold] using ⟨hv, hlt⟩⟩
        · simp [isGpuUsageAlert, isGpuMemoryAlert]
      · simp at h

/-- C10 witness: the invariant at a concrete critical CPU alert. -/
theorem evaluator_alert_invariant_witness :
    ({ alert_type := .cpu, alert_level := .critical,
       alert_message := .cpuHigh 96, alert_value := some 96,
       threshold_value := some 80 } : MonitoringAlertCreate).alert_level ≠ .info ∧
    ({ alert_type := .cpu, alert_level := .critical,
       alert_message := .cpuHigh 96, alert_value := some 96,
       threshold_value := some 80 } : MonitoringAlertCreate).threshold_value =
      some (configured_threshold {} (.cpuHigh 96)) :=
  let h := evaluator_alert_invariant {} { cpu_usage_percent := some 96 } []
    { alert_type := .cpu, alert_level := .critical,
      alert_message := .cpuHigh 96, alert_value := some 96,
      threshold_value := some 80 } (by decide)
  ⟨h.1, h.2.1⟩

theorem find?_id_map_resolve (rows : List AlertRow) (i : Nat) (t : Int)
    (a : AlertRow) (h : rows.find? (fun r => r.id == i) = some a) :
    (rows.map fun r =>
        if r.id == i then { r with is_resolved := .resolved, resolved_at := some t }
        else r).find? (fun r => r.id == i) =
      some { a with is_resolved := .resolved, resolved_at := some t } := by
  induction rows with
  | nil => simp at h
  | cons x xs ih =>
    by_cases hx : (x.id == i) = true
    · rw [@List.find?_cons_of_pos AlertRow (fun r => r.id == i) x xs hx] at h
      injection h with h
      subst h
      rw [List.map_cons, if_pos hx]
      exact @List.find?_cons_of_pos AlertRow (fun r => r.id == i) _ _ hx
    · rw [@List.find?_cons_of_neg AlertRow (fun r => r.id == i) x xs hx] at h
      rw [List.map_cons, if_neg hx]
      rw [@List.find?_cons_of_neg AlertRow (fun r => r.id == i) x _ hx]
      exact ih h

theorem resolve_alert_found (db : MonitoringDB) (i : Nat) (t : Int)
    (a : AlertRow) (h : crud_get_alert db i = some a) :
    resolve_alert db i t =
      (some { a with is_resolved := .resolved, resolved_at := some t },
       { db with alert_rows := db.alert_rows.map fun r =>
           if r.id == i then { r with is_resolved := .resolved, resolved_at := some t }
           else r }) := by
  unfold resolve_alert
  rw [h]
  dsimp only
  unfold crud_get_alert at h ⊢
  dsimp only
  rw [find?_id_map_resolve db.alert_rows i t a h]

/-- Store with a single active alert, used by the C2 counterexample. -/
def c2Store : MonitoringDB :=
  { next_id := 2,
    alert_rows := [{ id := 1, timestamp := 0, alert_type := .cpu,
                     alert_level := .warning, alert_message := .cpuHigh 90 }] }

/-- C2 counterexample: resolving alert 1 at time 10 sets resolved_at = 10,
but resolving it again at time 20 returns resolved_at = 20 — the second call
does not return the value set by the first. -/
theorem resolve_alert_restamps :
    ((resolve_alert c2Store 1 10).1.map (fun r => r.resolved_at)) = some (some 10) ∧
    ((resolve_alert (resolve_alert c2Store 1 10).2 1 20).1.map
        (fun r => r.resolved_at)) = some (some 20) ∧
    (some (20 : Int) : Option Int) ≠ some (10 : Int) := by decide

/-- C2 (amended) : re-resolution is never an error — for every alert id
present in the store, a second resolveAlert(id) again returns the record,
resolved — but resolved_at is re-stamped on every call: the second call's
resolved_at is the second call's timestamp, not the value set by the first
call. -/
theorem resolve_alert_rerun (db : MonitoringDB) (i : Nat) (t1 t2 : Int)
    (a : AlertRow) (h : crud_get_alert db i = some a) :
    (resolve_alert ((resolve_alert db i t1).2) i t2).1 =
      some { a with is_resolved := .resolved, resolved_at := some t2 } := by
  rw [resolve_alert_found db i t1 a h]
  have h2 : crud_get_alert
      { db with alert_rows := db.alert_rows.map fun r =>
          if r.id == i then { r with is_resolved := .resolved, resolved_at := some t1 }
          else r } i =
      some { a with is_resolved := .resolved, resolved_at := some t1 } := by
    unfold crud_get_alert at h ⊢
    exact find?_id_map_resolve _ _ _ _ h
  rw [resolve_alert_found _ i t2 _ h2]

/-- C2 witness: re-resolving the concrete store's alert at time 20 yields the
resolved record stamped 20. -/
theorem resolve_alert_rerun_witness :
    (resolve_alert ((resolve_alert c2Store 1 10).2) 1 20).1 =
      some { id := 1, timestamp := 0, alert_type := .cpu,
             alert_level := .warning, alert_message := .cpuHigh 90,
             is_resolved := .resolved, resolved_at := some 20 } := by
  rw [resolve_alert_rerun c2Store 1 10 20
    { id := 1, timestamp := 0, alert_type := .cpu,
      alert_level := .warning, alert_message := .cpuHigh 90 } (by decide)]

/-- C7 : cleanup deletes exactly the system-snapshot rows strictly older than
now − retention_days (a row exactly at the cutoff and every strictly newer
row are kept), returns the count of deleted rows, and leaves the alert, GPU
and task tables untouched. -/
theorem cleanup_deletes_strictly_older (db : MonitoringDB) (now days : Int) :
    (cleanup_old_data db now days).1 +
      (cleanup_old_data db now days).2.system_rows.length =
        db.system_rows.length ∧
    (∀ r : SystemRow, r ∈ (cleanup_old_data db now days).2.system_rows ↔
      r ∈ db.system_rows ∧ now - days * 86400 ≤ r.timestamp) ∧
    (cleanup_old_data db now days).2.alert_rows = db.alert_rows ∧
    (cleanup_old_data db now days).2.gpu_rows = db.gpu_rows ∧
    (cleanup_old_data db now days).2.task_rows = db.task_rows := by
  refine ⟨?_, ?_, rfl, rfl, rfl⟩
  · exact length_filter_add_length_filter_not
      (fun r => decide (r.timestamp < now - days * 86400)) db.system_rows
  · intro r
    unfold cleanup_old_data
    simp [List.mem_filter, not_lt]

theorem foldl_insertGpu_system_rows (now : Int) (l : List GPUMetricsCreate)
    (db : MonitoringDB) :
    (l.foldl (fun d g => insertGpu d now g) db).system_rows = db.system_rows := by
  induction l generalizing db with
  | nil => rfl
  | cons g gs ih => rw [List.foldl_cons, ih]; rfl

theorem foldl_insertTask_system_rows (l : List TaskMetricsCreate)
    (db : MonitoringDB) :
    (l.foldl (fun d t => insertTask d t) db).system_rows = db.system_rows := by
  induction l generalizing db with
  | nil => rfl
  | cons t ts ih => rw [List.foldl_cons, ih]; rfl

theorem foldl_insertAlert_system_rows (now : Int) (l : List MonitoringAlertCreate)
    (db : MonitoringDB) :
    (l.foldl (fun d a => insertAlert d now a) db).system_rows = db.system_rows := by
  induction l generalizing db with
  | nil => rfl
  | cons a as ih => rw [List.foldl_cons, ih]; rfl

/-- The GPU backend of a host with no GPU library (`GPUtil` failed to
import): every probe fails. -/
def nullBackend : GpuBackend :=
  { gpu_available := false, nvml_available := false,
    getGPUs := .error "GPUtil not available",
    nvmlPowerFan := fun _ => .error "nvml not available" }

/-- C5 : no single metric category's failure escapes the sampler: when the
GPU backend is absent or `getGPUs` raises, `get_gpu_metrics` returns the
empty list; the collection cycle still appends exactly the system snapshot to
the system table; and a failing system sampling pass makes
`get_system_metrics` return the all-`None` snapshot instead of raising. -/
theorem gpu_failure_isolated (th : AlertThresholds)
    (sampled : Except String SystemMetricsCreate) (be : GpuBackend)
    (now : Int) (db : MonitoringDB)
    (hgpu : be.gpu_available = false ∨ ∃ e, be.getGPUs = .error e) :
    get_gpu_metrics be = [] ∧
    (collect_and_store_metrics th sampled be now db).system_rows =
      (insertSystem db now (get_system_metrics sampled)).system_rows ∧
    (∀ e, sampled = Except.error e → get_system_metrics sampled = {}) := by
  have hg : get_gpu_metrics be = [] := by
    rcases hgpu with h | ⟨e, h⟩ <;> unfold get_gpu_metrics <;> rw [h] <;> simp
  refine ⟨hg, ?_, ?_⟩
  · unfold collect_and_store_metrics
    rw [hg]
    simp only [get_task_metrics, List.foldl_nil,
      foldl_insertAlert_system_rows]
  · intro e he
    unfold get_system_metrics
    rw [he]

/-- C5 witness: the null backend and a failing system pass at a concrete
store. -/
theorem gpu_failure_isolated_witness :
    get_gpu_metrics nullBackend = [] ∧
    (collect_and_store_metrics {} (.error "boom") nullBackend 0 {}).system_rows =
      (insertSystem {} 0 (get_system_metrics (.error "boom"))).system_rows :=
  let h := gpu_failure_isolated {} (.error "boom") nullBackend 0 {} (Or.inl rfl)
  ⟨h.1, h.2.1⟩

/-- C6 : the overview's derived status is `critical` when some active alert
is critical, else `warning` when any active alert exists, else `healthy`;
and on an internal failure the overview is the degraded-but-complete record:
status `error`, no system metrics, empty GPU and alert collections. -/
theorem overview_status_and_degradation (db : MonitoringDB) (e : String)
    (now : Int) :
    ((get_system_overview (.ok db) now).summary.system_status =
      if (get_active_alerts db).any (fun a => a.alert_level == .critical) then
        "critical"
      else if (get_active_alerts db).isEmpty then "healthy" else "warning") ∧
    (get_system_overview (.ok db) now).active_alerts = get_active_alerts db ∧
    (get_system_overview (.ok db) now).gpu_metrics = gpu_get_all_latest db ∧
    (get_system_overview (.ok db) now).system_metrics = system_get_latest db ∧
    (get_system_overview (.ok db) now).summary.active_alerts_count =
      (get_active_alerts db).length ∧
    get_system_overview (.error e) now =
      { system_metrics := none, gpu_metrics := [], active_alerts := [],
        summary := { system_status := "error", timestamp := now,
                     active_alerts_count := 0, gpu_count := 0 } } := by
  refine ⟨?_, rfl, rfl, rfl, rfl, rfl⟩
  unfold get_system_overview
  dsimp only
  by_cases hcrit : (get_active_alerts db).any (fun a => a.alert_level == .critical)
  · have hne : (get_active_alerts db).isEmpty = false := by
      rcases List.any_eq_true.mp hcrit with ⟨x, hx, _⟩
      cases hl : get_active_alerts db with
      | nil => rw [hl] at hx; simp at hx
      | cons y ys => simp
    have hfil : ((get_active_alerts db).filter
        (fun a => a.alert_level == AlertLevel.critical)).isEmpty = false := by
      rcases List.any_eq_true.mp hcrit with ⟨x, hx, hpx⟩
      have : x ∈ (get_active_alerts db).filter
          (fun a => a.alert_level == AlertLevel.critical) :=
        List.mem_filter.mpr ⟨hx, hpx⟩
      cases hl : (get_active_alerts db).filter
          (fun a => a.alert_level == AlertLevel.critical) with
      | nil => rw [hl] at this; simp at this
      | cons y ys => simp
    simp [hcrit, hne, hfil]
  · have hfil : ((get_active_alerts db).filter
        (fun a => a.alert_level == AlertLevel.critical)) = [] := by
      rw [List.filter_eq_nil_iff]
      intro x hx hpx
      exact hcrit (List.any_eq_true.mpr ⟨x, hx, hpx⟩)
    by_cases hemp : (get_active_alerts db).isEmpty
    · simp [hcrit, hemp]
    · simp [hcrit, hemp, hfil]

/-- Trace length: every cycle duration yields exactly one executed cycle. -/
theorem collectorTrace_length (interval : Rat) (ds : List Rat) (t : Rat) :
    (collectorTrace interval ds t).length = ds.length := by
  induction ds generalizing t with
  | nil => rfl
  | cons d ds ih => simp [collectorTrace, ih]

/-- C4 : the collection loop's cadence is wall-clock from cycle start: after
a cycle of duration d it sleeps max(0, interval − d), so a non-overrunning
cycle's successor starts exactly `interval` after it started, while an
overrunning cycle sleeps 0, logs the warning, and the next cycle begins
immediately at t + d; no cycle is skipped. -/
theorem collector_overrun_starts_immediately (interval t d : Rat)
    (ds : List Rat) (hover : interval < d) :
    collectorSleepTime interval d = 0 ∧
    collectorWarns interval d = true ∧
    collectorTrace interval (d :: ds) t =
      { start_time := t, warned := true } :: collectorTrace interval ds (t + d) ∧
    (collectorTrace interval (d :: ds) t).length = ds.length + 1 ∧
    (∀ d2 : Rat, d2 ≤ interval → d2 + collectorSleepTime interval d2 = interval) := by
  have hs : collectorSleepTime interval d = 0 :=
    max_eq_left (sub_nonpos.mpr (le_of_lt hover))
  have hw : collectorWarns interval d = true := by
    simp [collectorWarns, hover]
  refine ⟨hs, hw, ?_, ?_, ?_⟩
  · rw [collectorTrace, hs, hw, add_zero]
  · simp [collectorTrace_length]
  · intro d2 h2
    rw [collectorSleepTime, max_eq_right (sub_nonneg.mpr h2)]
    ring

/-- C4 witness: interval 5, first cycle takes 7 — no sleep, a warning, the
second cycle starts at time 7, and both cycles run. -/
theorem collector_overrun_starts_immediately_witness :
    collectorSleepTime 5 7 = 0 ∧
    collectorWarns 5 7 = true ∧
    collectorTrace 5 [7, 3] 0 =
      { start_time := 0, warned := true } :: collectorTrace 5 [3] (0 + 7) ∧
    (collectorTrace 5 [7, 3] 0).length = [(3 : Rat)].length + 1 ∧
    (∀ d2 : Rat, d2 ≤ 5 → d2 + collectorSleepTime 5 d2 = 5) :=
  collector_overrun_starts_immediately 5 0 7 [3] (by norm_num)

/-- Store with three snapshots at seconds 0, 100 and 200 — all inside the
5-minute window [0, 300) — carrying cpu values 10, 20 and 30. -/
def c1Store : MonitoringDB :=
  { system_rows :=
      [{ id := 1, timestamp := 0, cpu_usage_percent := some 10 },
       { id := 2, timestamp := 100, cpu_usage_percent := some 20 },
       { id := 3, timestamp := 200, cpu_usage_percent := some 30 }] }

/-- C1 : the aggregation groups by `date_trunc('minute', …)` alone and never
reads its bucket-width parameter: the three snapshots inside one 5-minute
bucket come back as three one-minute buckets (avg = max = the single value in
each), not as one bucket with avg 20 / max 30, and the result is identical
for every bucket width. -/
theorem aggregate_ignores_bucket_width :
    (get_aggregated_data c1Store 0 300 5).map
        (fun r => (r.timestamp, r.avg_cpu_usage, r.max_cpu_usage)) =
      [(0, 10, 10), (60, 20, 20), (180, 30, 30)] ∧
    (get_aggregated_data c1Store 0 300 5).length ≠ 1 ∧
    (∀ w : Int, get_aggregated_data c1Store 0 300 w =
      get_aggregated_data c1Store 0 300 5) := by
  refine ⟨?_, ?_, fun w => rfl⟩
  · simp only [get_aggregated_data, c1Store, date_trunc_minute, sqlAvg, sqlMax,
      insertAsc]
    norm_num +decide [List.filter, List.dedup, List.filterMap, insertAsc]
  · simp only [get_aggregated_data, c1Store, date_trunc_minute, insertAsc]
    norm_num +decide [List.filter, List.dedup, insertAsc]

end TasksFlow
